import Mathlib

/-!
Verification development for the AI App Builder service (`app.py`).

The service accepts build tasks over HTTP, acknowledges immediately, and runs a
background pipeline (content generation via an AI backend, GitHub repository
publishing, callback notification) per round.  We give a shallow embedding of
the request path (`handle_task`), the background pipeline
(`process_task_with_deadline`, `process_round1`, `process_round2`), the content
generator (`generate_app_with_ai`, `modify_existing_app`,
`generate_fallback_app` with its literal templates), the repository file
create/update loops, and the notifier (`send_evaluation`).

External I/O (the AI backend, the GitHub API, the callback endpoint) is
modelled by environment records that fix the outcome of each outbound call;
each embedded operation returns its result together with a trace of the
externally visible events it performs, in order.
-/

/-- Attachment record of a task request (`class Attachment`). -/
structure Attachment where
  name : String
  url : String
deriving DecidableEq, Repr

/-- Inbound task submission (`class TaskRequest`).  `round` is a Python `int`,
so it is modelled as `Int`. -/
structure TaskRequest where
  email : String
  secret : String
  task : String
  round : Int
  nonce : String
  brief : String
  checks : List String
  evaluation_url : String
  attachments : List Attachment := []
deriving DecidableEq, Repr

/-- Outbound notification payload (`class TaskResponse`). -/
structure TaskResponse where
  email : String
  task : String
  round : Int
  nonce : String
  repo_url : String
  commit_sha : String
  pages_url : String
deriving DecidableEq, Repr

/-- Round-1 record stored in the in-memory `tasks` map
(`tasks[request.task] = {"repo_url": ..., "email": ..., "brief": ...}`). -/
structure RoundRecord where
  repo_url : String
  email : String
  brief : String
deriving DecidableEq, Repr

/-- Result of a successful GitHub publish operation: the dict
`{"repo_url": ..., "commit_sha": ..., "pages_url": ...}`. -/
structure PublishResult where
  repo_url : String
  commit_sha : String
  pages_url : String
deriving DecidableEq, Repr

/-- Association-list lookup by key; models Python `d[k]` / `k in d` on a
string-keyed dict, first match wins (keys are unique in every use). -/
def assocGet {α : Type} (n : String) : List (String × α) → Option α
  | [] => none
  | (k, v) :: r => if k = n then some v else assocGet n r

/-- Association-list overwrite-or-append; models Python `d[k] = v`: replace the
value in place when the key exists, append the pair otherwise. -/
def assocSet {α : Type} : List (String × α) → String → α → List (String × α)
  | [], n, v => [(n, v)]
  | (k, w) :: r, n, v => if k = n then (k, v) :: r else (k, w) :: assocSet r n v

/-- In-memory Round State Store: the module-level `tasks = {}` dict mapping a
task id to its round-1 `RoundRecord`. -/
abbrev Tasks : Type := List (String × RoundRecord)

/-- Substring test; models Python `pat in s` (for nonempty `pat`):
`s.split(pat)` has at least two parts exactly when `pat` occurs in `s`. -/
def strContains (s pat : String) : Bool := (s.splitOn pat).length ≥ 2

/-- Calculator template: the `html_content` literal of the
`"calculator" in brief_lower` branch of `generate_fallback_app`. -/
def calculatorHtml : String :=
  "<!DOCTYPE html>\n<html lang=\"en\">\n<head>\n    <meta charset=\"UTF-8\">\n    <meta name=\"viewport\" content=\"width=device-width, initial-scale=1.0\">\n    <title>Calculator</title>\n    <style>\n        .calculator \x7b\n            max-width: 300px;\n            margin: 50px auto;\n            padding: 20px;\n            border: 1px solid #ccc;\n            border-radius: 10px;\n            background: #f9f9f9;\n        \x7d\n        .display \x7b\n            width: 100%;\n            height: 50px;\n            margin-bottom: 15px;\n            text-align: right;\n            padding: 10px;\n            font-size: 24px;\n            border: 1px solid #ccc;\n            border-radius: 5px;\n            background: white;\n        \x7d\n        .buttons \x7b\n            display: grid;\n            grid-template-columns: repeat(4, 1fr);\n            gap: 8px;\n        \x7d\n        button \x7b\n            padding: 15px;\n            font-size: 18px;\n            border: 1px solid #ccc;\n            border-radius: 5px;\n            cursor: pointer;\n            background: white;\n        \x7d\n        button:hover \x7b\n            background-color: #e0e0e0;\n        \x7d\n        .equals \x7b\n            background: #4CAF50;\n            color: white;\n        \x7d\n        .equals:hover \x7b\n            background: #45a049;\n        \x7d\n    </style>\n</head>\n<body>\n    <div class=\"calculator\">\n        <input type=\"text\" class=\"display\" id=\"display\" readonly>\n        <div class=\"buttons\">\n            <button onclick=\"clearDisplay()\">C</button>\n            <button onclick=\"appendToDisplay(\x27/\x27)\">/</button>\n            <button onclick=\"appendToDisplay(\x27*\x27)\">×</button>\n            <button onclick=\"appendToDisplay(\x27-\x27)\">-</button>\n            <button onclick=\"appendToDisplay(\x277\x27)\">7</button>\n            <button onclick=\"appendToDisplay(\x278\x27)\">8</button>\n            <button onclick=\"appendToDisplay(\x279\x27)\">9</button>\n            <button onclick=\"appendToDisplay(\x27+\x27)\">+</button>\n            <button onclick=\"appendToDisplay(\x274\x27)\">4</button>\n            <button onclick=\"appendToDisplay(\x275\x27)\">5</button>\n            <button onclick=\"appendToDisplay(\x276\x27)\">6</button>\n            <button onclick=\"calculate()\" class=\"equals\" style=\"grid-row: span 2\">=</button>\n            <button onclick=\"appendToDisplay(\x271\x27)\">1</button>\n            <button onclick=\"appendToDisplay(\x272\x27)\">2</button>\n            <button onclick=\"appendToDisplay(\x273\x27)\">3</button>\n            <button onclick=\"appendToDisplay(\x270\x27)\" style=\"grid-column: span 2\">0</button>\n            <button onclick=\"appendToDisplay(\x27.\x27)\">.</button>\n        </div>\n    </div>\n\n    <script>\n        function appendToDisplay(value) \x7b\n            document.getElementById(\x27display\x27).value += value;\n        \x7d\n\n        function clearDisplay() \x7b\n            document.getElementById(\x27display\x27).value = \x27\x27;\n        \x7d\n\n        function calculate() \x7b\n            try \x7b\n                const expression = document.getElementById(\x27display\x27).value.replace(\x27×\x27, \x27*\x27);\n                const result = eval(expression);\n                document.getElementById(\x27display\x27).value = result;\n            \x7d catch (error) \x7b\n                document.getElementById(\x27display\x27).value = \x27Error\x27;\n            \x7d\n        \x7d\n\n        // Keyboard support\n        document.addEventListener(\x27keydown\x27, function(event) \x7b\n            const key = event.key;\n            if (\x270123456789/*-+.\x27.includes(key)) \x7b\n                appendToDisplay(key);\n            \x7d else if (key === \x27Enter\x27) \x7b\n                calculate();\n            \x7d else if (key === \x27Escape\x27 || key === \x27c\x27 || key === \x27C\x27) \x7b\n                clearDisplay();\n            \x7d else if (key === \x27Backspace\x27) \x7b\n                const display = document.getElementById(\x27display\x27);\n                display.value = display.value.slice(0, -1);\n            \x7d\n        \x7d);\n    </script>\n</body>\n</html>"

/-- Captcha template: the `html_content` literal of the
`"captcha" in brief_lower` branch of `generate_fallback_app`. -/
def captchaHtml : String :=
  "<!DOCTYPE html>\n<html lang=\"en\">\n<head>\n    <meta charset=\"UTF-8\">\n    <meta name=\"viewport\" content=\"width=device-width, initial-scale=1.0\">\n    <title>Captcha Solver</title>\n    <style>\n        body \x7b\n            font-family: Arial, sans-serif;\n            max-width: 600px;\n            margin: 50px auto;\n            padding: 20px;\n            background: #f5f5f5;\n        \x7d\n        .container \x7b\n            background: white;\n            border: 1px solid #ddd;\n            padding: 30px;\n            border-radius: 10px;\n            box-shadow: 0 2px 10px rgba(0,0,0,0.1);\n        \x7d\n        input, button \x7b\n            padding: 12px;\n            margin: 8px 0;\n            font-size: 16px;\n            border: 1px solid #ccc;\n            border-radius: 5px;\n        \x7d\n        input \x7b\n            width: 70%;\n        \x7d\n        button \x7b\n            background: #007bff;\n            color: white;\n            border: none;\n            cursor: pointer;\n        \x7d\n        button:hover \x7b\n            background: #0056b3;\n        \x7d\n        #captchaImage \x7b\n            max-width: 100%;\n            height: auto;\n            border: 1px solid #ddd;\n            margin: 15px 0;\n            border-radius: 5px;\n        \x7d\n        #result \x7b\n            margin-top: 15px;\n            padding: 10px;\n            border-radius: 5px;\n            background: #e7f3ff;\n        \x7d\n    </style>\n</head>\n<body>\n    <div class=\"container\">\n        <h1>🔍 Captcha Solver</h1>\n        <div>\n            <label for=\"imageUrl\"><strong>Image URL:</strong></label><br>\n            <input type=\"text\" id=\"imageUrl\" placeholder=\"Enter captcha image URL\">\n            <button onclick=\"loadImage()\">Load Image</button>\n        </div>\n        <div id=\"imageContainer\"></div>\n        <div>\n            <label for=\"captchaText\"><strong>Captcha Text:</strong></label><br>\n            <input type=\"text\" id=\"captchaText\" placeholder=\"Enter the text you see\">\n            <button onclick=\"solveCaptcha()\">Solve Captcha</button>\n        </div>\n        <div id=\"result\"></div>\n    </div>\n\n    <script>\n        function loadImage() \x7b\n            const url = document.getElementById(\x27imageUrl\x27).value;\n            if (url) \x7b\n                const img = document.createElement(\x27img\x27);\n                img.id = \x27captchaImage\x27;\n                img.src = url;\n                img.alt = \x27Captcha Image\x27;\n                img.onerror = function() \x7b\n                    alert(\x27❌ Failed to load image. Please check the URL.\x27);\n                \x7d;\n                document.getElementById(\x27imageContainer\x27).innerHTML = \x27\x27;\n                document.getElementById(\x27imageContainer\x27).appendChild(img);\n            \x7d\n        \x7d\n\n        function solveCaptcha() \x7b\n            const text = document.getElementById(\x27captchaText\x27).value;\n            if (text) \x7b\n                document.getElementById(\x27result\x27).innerHTML = \n                    \x60<p>✅ Captcha solved: <strong>$\x7btext\x7d</strong></p>\x60;\n            \x7d else \x7b\n                document.getElementById(\x27result\x27).innerHTML = \n                    \x27<p>❌ Please enter the captcha text</p>\x27;\n            \x7d\n        \x7d\n\n        // Load URL parameter if present\n        const urlParams = new URLSearchParams(window.location.search);\n        const imageUrl = urlParams.get(\x27url\x27);\n        if (imageUrl) \x7b\n            document.getElementById(\x27imageUrl\x27).value = imageUrl;\n            setTimeout(loadImage, 500);\n        \x7d\n    </script>\n</body>\n</html>"

/-- Markdown-converter template: the `html_content` literal of the
`"markdown" in brief_lower or "html" in brief_lower` branch of
`generate_fallback_app`. -/
def markdownHtml : String :=
  "<!DOCTYPE html>\n<html lang=\"en\">\n<head>\n    <meta charset=\"UTF-8\">\n    <meta name=\"viewport\" content=\"width=device-width, initial-scale=1.0\">\n    <title>Markdown to HTML Converter</title>\n    <style>\n        body \x7b\n            font-family: Arial, sans-serif;\n            max-width: 1000px;\n            margin: 0 auto;\n            padding: 20px;\n            background: #f5f5f5;\n        \x7d\n        .container \x7b\n            display: grid;\n            grid-template-columns: 1fr 1fr;\n            gap: 20px;\n            margin-top: 20px;\n        \x7d\n        .editor, .preview \x7b\n            background: white;\n            border: 1px solid #ddd;\n            border-radius: 8px;\n            padding: 15px;\n        \x7d\n        textarea \x7b\n            width: 100%;\n            height: 400px;\n            border: 1px solid #ccc;\n            border-radius: 4px;\n            padding: 10px;\n            font-family: monospace;\n            resize: vertical;\n        \x7d\n        #preview \x7b\n            height: 400px;\n            overflow-y: auto;\n            border: 1px solid #ccc;\n            border-radius: 4px;\n            padding: 15px;\n            background: #fafafa;\n        \x7d\n        h1 \x7b\n            color: #333;\n            text-align: center;\n        \x7d\n    </style>\n</head>\n<body>\n    <h1>📝 Markdown to HTML Converter</h1>\n    <div class=\"container\">\n        <div class=\"editor\">\n            <h3>Markdown Input</h3>\n            <textarea id=\"markdownInput\" placeholder=\"# Enter your markdown here...&#10;&#10;- List item 1&#10;- List item 2&#10;&#10;**Bold text** and *italic text*\"># Welcome to Markdown Converter\n\n## Features\n- Convert **markdown** to HTML\n- Live preview\n- Easy to use\n\n### Try it out!\n1. Type markdown on the left\n2. See HTML preview on the right\n\n**Enjoy!**</textarea>\n        </div>\n        <div class=\"preview\">\n            <h3>HTML Preview</h3>\n            <div id=\"preview\"></div>\n        </div>\n    </div>\n\n    <script>\n        function convertMarkdown(md) \x7b\n            // Simple markdown to HTML conversion\n            return md\n                .replace(/^# (.*$)/gim, \x27<h1>$1</h1>\x27)\n                .replace(/^## (.*$)/gim, \x27<h2>$1</h2>\x27)\n                .replace(/^### (.*$)/gim, \x27<h3>$1</h3>\x27)\n                .replace(/\\*\\*(.*)\\*\\*/gim, \x27<strong>$1</strong>\x27)\n                .replace(/\\*(.*)\\*/gim, \x27<em>$1</em>\x27)\n                .replace(/^- (.*$)/gim, \x27<li>$1</li>\x27)\n                .replace(/(<li>.*<\\/li>)/gims, \x27<ul>$1</ul>\x27)\n                .replace(/\\n/g, \x27<br>\x27);\n        \x7d\n\n        function updatePreview() \x7b\n            const markdown = document.getElementById(\x27markdownInput\x27).value;\n            const html = convertMarkdown(markdown);\n            document.getElementById(\x27preview\x27).innerHTML = html;\n        \x7d\n\n        document.getElementById(\x27markdownInput\x27).addEventListener(\x27input\x27, updatePreview);\n\n        // Initial preview\n        updatePreview();\n    </script>\n</body>\n</html>"

/-- MIT license text returned by `generate_mit_license`. -/
def generate_mit_license : String :=
  "Generate MIT License file"

/-- Gitignore text returned by `generate_gitignore`. -/
def generate_gitignore : String :=
  "Generate .gitignore file"

/-- Generic placeholder page built by `generate_fallback_html(brief)`; the
f-string interpolates `brief[:50]` twice and `brief` once. -/
def generate_fallback_html (brief : String) : String :=
  "<!DOCTYPE html>\n<html lang=\"en\">\n<head>\n    <meta charset=\"UTF-8\">\n    <meta name=\"viewport\" content=\"width=device-width, initial-scale=1.0\">\n    <title>Generated App - " ++ (brief.take 50) ++ "</title>\n    <style>\n        body \x7b\n            font-family: Arial, sans-serif;\n            max-width: 800px;\n            margin: 0 auto;\n            padding: 20px;\n            line-height: 1.6;\n        \x7d\n        .container \x7b\n            background: #f5f5f5;\n            padding: 20px;\n            border-radius: 8px;\n            margin-top: 20px;\n        \x7d\n        h1 \x7b\n            color: #333;\n        \x7d\n    </style>\n</head>\n<body>\n    <h1>Generated Web Application</h1>\n    <div class=\"container\">\n        <h2>Application Brief</h2>\n        <p>" ++ brief ++ "</p>\n        <p><em>This is a placeholder application. The AI code generation will be implemented next.</em></p>\n    </div>\n\n    <script>\n        console.log(\x27Application loaded for:\x27, \x27" ++ (brief.take 50) ++ "\x27);\n    </script>\n</body>\n</html>"

/-- README built by `generate_readme(brief, checks, task)`. -/
def generate_readme (brief : String) (checks : List String) (task : String) : String :=
  "# " ++ task ++ "\n\n## Description\nAutomatically generated web application.\n\n**Brief**: " ++ brief ++ "\n\n## Features\n- Responsive web application\n- Deployed on GitHub Pages\n- AI-generated code\n\n## Evaluation Criteria\n" ++ String.intercalate "\n" (checks.map (fun check => "- " ++ check)) ++ "\n\n## Setup\nThis is a static web application. No setup required.\n\n## License\nMIT License\n"

/-- README built by `generate_updated_readme(original_brief, modification_brief, task)`
on the round-2 path. -/
def generate_updated_readme (original_brief modification_brief task : String) : String :=
  "# " ++ task ++ "\n\n## Description\nAutomatically generated and modified web application.\n\n**Original Brief**: " ++ original_brief ++ "\n\n**Modification**: " ++ modification_brief ++ "\n\n## History\n- **Round 1**: Initial application created\n- **Round 2**: Application modified with new features\n\n## License\nMIT License\n"

/-- Fallback artifact set (`generate_fallback_app`): picks a canned template by
substring match on the lowercased brief, then returns the four-file dict. -/
def generate_fallback_app (request : TaskRequest) : List (String × String) :=
  let brief_lower := request.brief.toLower
  let html_content :=
    if strContains brief_lower "calculator" then calculatorHtml
    else if strContains brief_lower "captcha" then captchaHtml
    else if strContains brief_lower "markdown" || strContains brief_lower "html" then markdownHtml
    else generate_fallback_html request.brief
  [("index.html", html_content),
   ("README.md", generate_readme request.brief request.checks request.task),
   ("LICENSE", generate_mit_license),
   (".gitignore", generate_gitignore)]

/-- Code-fence extraction of `extract_html_code` on string content: take the
text between a ```` ```html ```` (or plain ```` ``` ````) fence when present,
then strip surrounding whitespace. -/
def extract_html_code (content : String) : String :=
  let content :=
    if strContains content "\x60\x60\x60html" then
      ((((content.splitOn "\x60\x60\x60html").getD 1 "").splitOn "\x60\x60\x60").getD 0 "").trim
    else if strContains content "\x60\x60\x60" then
      ((((content.splitOn "\x60\x60\x60").getD 1 "").splitOn "\x60\x60\x60").getD 0 "").trim
    else content
  if strContains content "<!DOCTYPE" || strContains content "<html" then content.trim
  else content.trim

/-- Externally visible events of the service, in program order: the audit
write and background scheduling on the request path, generator invocations and
their backend HTTP calls, publisher calls, notification attempts (carrying the
posted payload), retry sleeps, and error logs. -/
inductive Ev
  | audit
  | genInvoke
  | genBackendCall
  | modifyInvoke
  | modifyBackendCall
  | pubCreate
  | pubUpdate
  | notifyAttempt (payload : TaskResponse) (url : String) (attempt : Nat)
  | sleepSec (secs : Nat)
  | logError (msg : String)
deriving DecidableEq, Repr

/-- Response of one HTTP POST to the callback address: an HTTP status code, or
a network/timeout failure (the exception message). -/
inductive CallbackResp
  | status (code : Nat)
  | netErr (msg : String)
deriving DecidableEq, Repr

/-- Retry loop body of `send_evaluation` over the remaining attempt indices
(`for attempt in range(3)`): each attempt posts to the callback; a 200 response
returns immediately; otherwise the failure is logged and, when `attempt < 2`,
a 1-second sleep precedes the next attempt; exhaustion logs an error. -/
def sendEvalLoop (oracle : Nat → CallbackResp) (payload : TaskResponse) (url : String) :
    List Nat → Bool × List Ev
  | [] => (false, [Ev.logError "Failed to send evaluation notification after all retries"])
  | a :: rest =>
    let attemptEv := Ev.notifyAttempt payload url a
    let failCont :=
      let next := sendEvalLoop oracle payload url rest
      if a < 2 then (next.1, attemptEv :: Ev.sleepSec 1 :: next.2)
      else (next.1, attemptEv :: next.2)
    match oracle a with
    | .status code => if code = 200 then (true, [attemptEv]) else failCont
    | .netErr _ => failCont

/-- Notifier (`send_evaluation`): three bounded attempts against the callback
address; returns whether delivery succeeded, never raising to the caller. -/
def send_evaluation (oracle : Nat → CallbackResp) (payload : TaskResponse) (url : String) :
    Bool × List Ev :=
  sendEvalLoop oracle payload url [0, 1, 2]

/-- Response body shapes of the AI backend distinguished by
`generate_app_with_ai` / `modify_existing_app`: a dict with an `output` field,
a dict with a nonempty `choices` list (carrying the message content), or any
other shape (used via `str(result)`). -/
inductive RespBody
  | withOutput (raw : String)
  | withChoices (raw : String)
  | unexpected (stringified : String)
deriving DecidableEq, Repr

/-- Environment of one outbound AI-generation call on the round-1 path:
the configured API key, and the call outcome — `.error msg` for a raised
exception (network failure or timeout), `.ok (code, body)` for an HTTP
response. -/
structure GenEnv where
  aipipeKey : Option String
  call : Except String (Nat × RespBody)

/-- Configuration test of `generate_app_with_ai`: the AIPipe key is falsy
(absent or empty) or the placeholder value. -/
def aipipeConfigured : Option String → Bool
  | none => false
  | some k => !(k == "") && !(k == "your_aipipe_key_here")

/-- Four-file artifact dict returned by `generate_app_with_ai` on success. -/
def mkRound1Files (request : TaskRequest) (html_content : String) : List (String × String) :=
  [("index.html", html_content),
   ("README.md", generate_readme request.brief request.checks request.task),
   ("LICENSE", generate_mit_license),
   (".gitignore", generate_gitignore)]

/-- Round-1 content generation (`generate_app_with_ai`): falls back to
`generate_fallback_app` when the key is unconfigured, the call raises, the
status is not 200, or the response shape is unexpected; otherwise extracts the
HTML and returns the four-file artifact set. Never fails. -/
def generate_app_with_ai (env : GenEnv) (request : TaskRequest) :
    List (String × String) × List Ev :=
  if !(aipipeConfigured env.aipipeKey) then (generate_fallback_app request, [Ev.genInvoke])
  else
    match env.call with
    | .error _ => (generate_fallback_app request, [Ev.genInvoke, Ev.genBackendCall])
    | .ok (code, body) =>
      if code = 200 then
        match body with
        | .withOutput raw =>
          (mkRound1Files request (extract_html_code raw), [Ev.genInvoke, Ev.genBackendCall])
        | .withChoices raw =>
          (mkRound1Files request (extract_html_code raw), [Ev.genInvoke, Ev.genBackendCall])
        | .unexpected _ => (generate_fallback_app request, [Ev.genInvoke, Ev.genBackendCall])
      else (generate_fallback_app request, [Ev.genInvoke, Ev.genBackendCall])

/-- Environment of the outbound AI call on the round-2 modify path: the
`index.html` fetched from the existing repository (absent when the fetch
failed — `get_existing_code_from_github` swallows its errors), and the call
outcome as in `GenEnv`. -/
structure ModEnv where
  existingIndexHtml : Option String
  call : Except String (Nat × RespBody)

/-- Two-file artifact dict returned by `modify_existing_app` on success. -/
def mkRound2Files (request : TaskRequest) (round1_brief : String) (html : String) :
    List (String × String) :=
  [("index.html", html),
   ("README.md", generate_updated_readme round1_brief request.brief request.task)]

/-- Round-2 content generation (`modify_existing_app`): raises (returns
`.error`) when the backend call raises or returns a non-200 status; a 200
response of any shape yields the updated two-file artifact set (an unexpected
shape is stringified and fed to `extract_html_code`). -/
def modify_existing_app (env : ModEnv) (request : TaskRequest) (round1_data : RoundRecord) :
    Except String (List (String × String)) × List Ev :=
  match env.call with
  | .error m =>
    (.error ("Failed to modify application: " ++ m), [Ev.modifyInvoke, Ev.modifyBackendCall])
  | .ok (code, body) =>
    if code = 200 then
      match body with
      | .withOutput raw =>
        (.ok (mkRound2Files request round1_data.brief (extract_html_code raw)),
         [Ev.modifyInvoke, Ev.modifyBackendCall])
      | .withChoices raw =>
        (.ok (mkRound2Files request round1_data.brief (extract_html_code raw)),
         [Ev.modifyInvoke, Ev.modifyBackendCall])
      | .unexpected s =>
        (.ok (mkRound2Files request round1_data.brief (extract_html_code s)),
         [Ev.modifyInvoke, Ev.modifyBackendCall])
    else
      (.error "Failed to modify application: AIPipe API request failed",
       [Ev.modifyInvoke, Ev.modifyBackendCall])

/-- Outcome of a GitHub publish call: a `PublishResult`, or a raised exception
message. -/
inductive PubOutcome
  | ok (r : PublishResult)
  | err (msg : String)

/-- Environment fixing every outbound call a background run can make. -/
structure Env where
  gen : GenEnv
  modifyEnv : ModEnv
  createOutcome : PubOutcome
  updateOutcome : PubOutcome
  notify : Nat → CallbackResp

/-- Round-1 background pipeline (`process_round1`): generate the artifact set,
create the GitHub repository, store the `RoundRecord` under the task id, then
notify.  A publish failure raises; generation and notification never do. -/
def process_round1 (env : Env) (tasks : Tasks) (request : TaskRequest) :
    Except String Unit × Tasks × List Ev :=
  match env.createOutcome with
  | .err m =>
    (.error ("Failed to create repository: " ++ m), tasks,
     (generate_app_with_ai env.gen request).2 ++ [Ev.pubCreate])
  | .ok repo_info =>
    (.ok (),
     assocSet tasks request.task ⟨repo_info.repo_url, request.email, request.brief⟩,
     (generate_app_with_ai env.gen request).2 ++ [Ev.pubCreate] ++
       (send_evaluation env.notify
         ⟨request.email, request.task, 1, request.nonce,
          repo_info.repo_url, repo_info.commit_sha, repo_info.pages_url⟩
         request.evaluation_url).2)

/-- Round-2 background pipeline (`process_round2`): raise immediately when the
task id has no round-1 record; otherwise modify the existing app, update the
repository, and notify with a round-2 payload.  Never writes the `tasks`
map. -/
def process_round2 (env : Env) (tasks : Tasks) (request : TaskRequest) :
    Except String Unit × Tasks × List Ev :=
  match assocGet request.task tasks with
  | none => (.error "No Round 1 data found for this task", tasks, [])
  | some round1_data =>
    match modify_existing_app env.modifyEnv request round1_data with
    | (.error msg, mtr) => (.error msg, tasks, mtr)
    | (.ok _updated_files, mtr) =>
      match env.updateOutcome with
      | .err msg => (.error ("Failed to update repository: " ++ msg), tasks, mtr ++ [Ev.pubUpdate])
      | .ok repo_info =>
        (.ok (), tasks,
         mtr ++ [Ev.pubUpdate] ++
           (send_evaluation env.notify
             ⟨request.email, request.task, 2, request.nonce,
              repo_info.repo_url, repo_info.commit_sha, repo_info.pages_url⟩
             request.evaluation_url).2)

/-- Top-level exception handler of `process_task_with_deadline`: any error
raised by the round pipeline is caught there, logged, and the background
operation returns. -/
def bgWrap : Except String Unit × Tasks × List Ev → Tasks × List Ev
  | (.ok _, tasks, tr) => (tasks, tr)
  | (.error m, tasks, tr) => (tasks, tr ++ [Ev.logError ("Task processing failed: " ++ m)])

/-- Background operation (`process_task_with_deadline`), untimed view: route
`round == 1` to the round-1 pipeline and every other round value to the
round-2 pipeline, catching any raised error at the top. -/
def process_task_with_deadline (env : Env) (tasks : Tasks) (request : TaskRequest) :
    Tasks × List Ev :=
  bgWrap (if request.round = 1 then process_round1 env tasks request
          else process_round2 env tasks request)

/-- Acknowledgment object returned by `handle_task` on acceptance. -/
structure Ack where
  status : String
  message : String
  task : String
  round : Int
deriving DecidableEq, Repr

/-- Synchronous outcome of the `/api/task` endpoint: an HTTP rejection or the
acknowledgment object. -/
inductive HandleOutcome
  | rejected (statusCode : Nat) (detail : String)
  | accepted (ack : Ack)
deriving DecidableEq, Repr

/-- Request path (`handle_task`): validate the shared secret (HTTP 401 on
mismatch, before any other action), perform the audit write, schedule the
background operation, and return the acknowledgment.  The result is the
synchronous outcome, the request-path event trace, and the list of scheduled
background submissions (each denoting a deferred `process_task_with_deadline`
run). -/
def handle_task (cfgSecret : String) (request : TaskRequest) :
    HandleOutcome × List Ev × List TaskRequest :=
  if request.secret ≠ cfgSecret then
    (.rejected 401 "Invalid secret", [], [])
  else
    (.accepted ⟨"accepted", "Round " ++ toString request.round ++ " processing started",
       request.task, request.round⟩,
     [Ev.audit], [request])

/-- File state of a GitHub repository: file path to content, in creation
order. -/
abbrev Repo : Type := List (String × String)

/-- File-creation loop of `create_github_repository` (the
`for filename, content in files.items(): repo.create_file(...)` loop): each
artifact is created as a new file. -/
def create_github_files (files : List (String × String)) : Repo :=
  files.foldl (fun repo nc => repo ++ [nc]) []

/-- File-update loop of `update_github_repository` (the
`for filename, new_content in files.items()` loop): for each artifact, update
the same-named file when `get_contents` finds it, create it otherwise; files
absent from the artifact set are untouched. -/
def update_github_files (repo : Repo) (files : List (String × String)) : Repo :=
  files.foldl (fun repo nc => assocSet repo nc.1 nc.2) repo

/-- Total ceiling `MAX_PROCESSING_TIME = 9 * 60` seconds. -/
def MAX_PROCESSING_TIME : Nat := 9 * 60

/-- Stage-level limit `TASK_TIMEOUT = 60 * 8` seconds, enforced by
`asyncio.wait_for` around the round pipeline. -/
def TASK_TIMEOUT : Nat := 60 * 8

/-- Wall-clock durations (seconds) of the four sequential stages of a round-1
background run: generation, publish, round-record store, notification. -/
structure StageDurations where
  dGen : Nat
  dPub : Nat
  dStore : Nat
  dNotify : Nat
deriving DecidableEq, Repr

/-- Timed events of a background run: stage starts stamped with elapsed
seconds, the timeout log, the total-deadline log, and normal completion. -/
inductive TEv
  | genStart (t : Nat)
  | pubStart (t : Nat)
  | storeStart (t : Nat)
  | notifyStart (t : Nat)
  | logTimeout
  | logDeadlineMissed
  | completed
deriving DecidableEq, Repr

/-- Stage starts of one sequential round-1 run under `asyncio.wait_for`: a
stage begins only while elapsed time is below `TASK_TIMEOUT` (the timeout
cancels the in-flight pipeline at the ceiling). -/
def startedEvents (d : StageDurations) : List TEv :=
  [TEv.genStart 0]
    ++ (if d.dGen < TASK_TIMEOUT then [TEv.pubStart d.dGen] else [])
    ++ (if d.dGen + d.dPub < TASK_TIMEOUT then [TEv.storeStart (d.dGen + d.dPub)] else [])
    ++ (if d.dGen + d.dPub + d.dStore < TASK_TIMEOUT then
          [TEv.notifyStart (d.dGen + d.dPub + d.dStore)] else [])

/-- Total wall-clock duration of the four stages. -/
def totalDuration (d : StageDurations) : Nat := d.dGen + d.dPub + d.dStore + d.dNotify

/-- Timed view of `process_task_with_deadline`: if the pipeline does not finish
within `TASK_TIMEOUT`, the `asyncio.TimeoutError` branch logs the missed
deadline and returns at once; otherwise the post-pipeline total-time check
runs (logging when total time exceeds `MAX_PROCESSING_TIME`), else the run
completes. -/
def process_task_with_deadline_timed (d : StageDurations) : List TEv :=
  if totalDuration d > TASK_TIMEOUT then startedEvents d ++ [TEv.logTimeout]
  else if totalDuration d > MAX_PROCESSING_TIME then startedEvents d ++ [TEv.logDeadlineMissed]
  else startedEvents d ++ [TEv.completed]

theorem assocGet_assocSet {α : Type} (l : List (String × α)) (k n : String) (v : α) :
    assocGet n (assocSet l k v) = if k = n then some v else assocGet n l := by
  induction l with
  | nil => simp [assocSet, assocGet]
  | cons p r ih =>
    obtain ⟨q, w⟩ := p
    by_cases h1 : q = k <;> by_cases h2 : k = n <;>
      simp_all [assocSet, assocGet]

theorem assocGet_eq_none_of_not_mem {α : Type} (l : List (String × α)) (n : String)
    (h : n ∉ l.map Prod.fst) : assocGet n l = none := by
  induction l with
  | nil => rfl
  | cons p r ih =>
    obtain ⟨k, v⟩ := p
    simp only [List.map_cons, List.mem_cons] at h
    push_neg at h
    have hk : ¬k = n := fun hq => h.1 hq.symm
    simp [assocGet, hk, ih h.2]

theorem assocGet_isSome_iff {α : Type} (l : List (String × α)) (n : String) :
    (assocGet n l).isSome = true ↔ n ∈ l.map Prod.fst := by
  induction l with
  | nil => simp [assocGet]
  | cons p r ih =>
    obtain ⟨k, v⟩ := p
    by_cases h : k = n
    · subst h; simp [assocGet]
    · have hk : ¬n = k := fun hq => h hq.symm
      simp [assocGet, h, ih, hk]

theorem update_github_files_lookup (files : List (String × String)) (repo : Repo)
    (hnd : (files.map Prod.fst).Nodup) (n : String) :
    assocGet n (update_github_files repo files) =
      match assocGet n files with
      | some c => some c
      | none => assocGet n repo := by
  induction files generalizing repo with
  | nil => simp [update_github_files, assocGet]
  | cons p fs ih =>
    obtain ⟨k, c⟩ := p
    simp only [List.map_cons, List.nodup_cons] at hnd
    have hstep : update_github_files repo ((k, c) :: fs) =
        update_github_files (assocSet repo k c) fs := rfl
    rw [hstep, ih (assocSet repo k c) hnd.2]
    by_cases h : k = n
    · subst h
      rw [assocGet_eq_none_of_not_mem fs k hnd.1]
      simp [assocGet, assocGet_assocSet]
    · simp only [assocGet, if_neg h]
      cases assocGet n fs <;> simp [assocGet_assocSet, h]

/-- C6: the round-2 publish loop of `update_github_repository` has merge
semantics — each artifact updates the same-named file when present and creates
it otherwise, no file absent from the artifact set is deleted, and in
particular `create {a: Y, b: Z}` followed by `update {a: X}` leaves
`{a: X, b: Z}`. -/
theorem c6_update_merge_semantics (repo : Repo) (files : List (String × String))
    (hnd : (files.map Prod.fst).Nodup) :
    (∀ n, assocGet n (update_github_files repo files) =
      match assocGet n files with
      | some c => some c
      | none => assocGet n repo) ∧
    (∀ n, (assocGet n repo).isSome → (assocGet n (update_github_files repo files)).isSome) ∧
    assocGet "a" (update_github_files (create_github_files [("a", "Y"), ("b", "Z")])
      [("a", "X")]) = some "X" ∧
    assocGet "b" (update_github_files (create_github_files [("a", "Y"), ("b", "Z")])
      [("a", "X")]) = some "Z" := by
  refine ⟨fun n => update_github_files_lookup files repo hnd n, fun n hs => ?_, by decide, by decide⟩
  rw [update_github_files_lookup files repo hnd n]
  cases assocGet n files <;> simp_all

/-- C6 witness: the merge law at the concrete instance of the claim. -/
theorem c6_update_merge_semantics_witness :
    (([("a", "X")] : List (String × String)).map Prod.fst).Nodup ∧
    assocGet "a" (update_github_files (create_github_files [("a", "Y"), ("b", "Z")])
      [("a", "X")]) = some "X" ∧
    assocGet "b" (update_github_files (create_github_files [("a", "Y"), ("b", "Z")])
      [("a", "X")]) = some "Z" :=
  ⟨by decide, (c6_update_merge_semantics (create_github_files [("a", "Y"), ("b", "Z")])
      [("a", "X")] (by decide)).2.2⟩

/-- C8: fallback generation is deterministic — it reads only the brief, the
checks and the task id of the request, so two requests agreeing on those (and
on the attachments) get identical artifact sets, file names and contents
included. -/
theorem c8_fallback_deterministic (r1 r2 : TaskRequest)
    (hb : r1.brief = r2.brief) (hc : r1.checks = r2.checks) (ht : r1.task = r2.task)
    (_ha : r1.attachments = r2.attachments) :
    generate_fallback_app r1 = generate_fallback_app r2 := by
  unfold generate_fallback_app
  rw [hb, hc, ht]

/-- C8 witness: two submissions of the same calculator brief (differing in
submitter, secret and nonce) produce the same artifacts. -/
theorem c8_fallback_deterministic_witness :
    generate_fallback_app
      ⟨"e1@x.y", "s1", "task-1", 1, "n1", "Build a calculator", ["has buttons"], "http://cb1", []⟩ =
    generate_fallback_app
      ⟨"e2@x.y", "s2", "task-1", 1, "n2", "Build a calculator", ["has buttons"], "http://cb2", []⟩ :=
  c8_fallback_deterministic _ _ rfl rfl rfl rfl

/-- C1: a valid submission gets the acknowledgment object synchronously; the
request path performs no Content Generator or Repository Publisher call and no
notification — the background work is only scheduled. -/
theorem c1_ack_before_background (cfgSecret : String) (request : TaskRequest)
    (h : request.secret = cfgSecret) :
    handle_task cfgSecret request =
      (.accepted ⟨"accepted", "Round " ++ toString request.round ++ " processing started",
          request.task, request.round⟩, [Ev.audit], [request]) ∧
    (∀ e ∈ (handle_task cfgSecret request).2.1,
        e ≠ Ev.genInvoke ∧ e ≠ Ev.genBackendCall ∧ e ≠ Ev.modifyInvoke ∧
        e ≠ Ev.modifyBackendCall ∧ e ≠ Ev.pubCreate ∧ e ≠ Ev.pubUpdate ∧
        (∀ p u n, e ≠ Ev.notifyAttempt p u n)) ∧
    (handle_task cfgSecret request).2.2 = [request] := by
  simp [handle_task, h]

/-- C1 witness: a concrete valid round-1 submission is acknowledged with
only the background schedule recorded. -/
theorem c1_ack_before_background_witness :
    (handle_task "hvk1995"
      ⟨"a@b.c", "hvk1995", "t1", 1, "n1", "build a calculator", ["c1"], "http://cb", []⟩).2.2 =
    [⟨"a@b.c", "hvk1995", "t1", 1, "n1", "build a calculator", ["c1"], "http://cb", []⟩] :=
  (c1_ack_before_background "hvk1995"
    ⟨"a@b.c", "hvk1995", "t1", 1, "n1", "build a calculator", ["c1"], "http://cb", []⟩ rfl).2.2

/-- C7: a submission whose secret does not match is rejected synchronously
with HTTP 401 and triggers nothing: no audit write, no scheduled background
run, and no generator, publisher, or notifier event. -/
theorem c7_invalid_secret_rejected (cfgSecret : String) (request : TaskRequest)
    (h : request.secret ≠ cfgSecret) :
    handle_task cfgSecret request = (.rejected 401 "Invalid secret", [], []) ∧
    Ev.audit ∉ (handle_task cfgSecret request).2.1 ∧
    (handle_task cfgSecret request).2.2 = [] := by
  simp [handle_task, h]

/-- C7 witness: a concrete wrong-secret submission is rejected with 401 and
schedules nothing. -/
theorem c7_invalid_secret_rejected_witness :
    handle_task "hvk1995"
      ⟨"a@b.c", "wrong", "t1", 1, "n1", "build a calculator", ["c1"], "http://cb", []⟩ =
      (.rejected 401 "Invalid secret", [], []) :=
  (c7_invalid_secret_rejected "hvk1995"
    ⟨"a@b.c", "wrong", "t1", 1, "n1", "build a calculator", ["c1"], "http://cb", []⟩
    (by decide)).1

/-- C2: a round-2 submission whose task id has no round-1 record fails at the
top of the background operation with the missing-prerequisite error, which is
caught and logged there; the run performs zero notification attempts and zero
publisher calls. -/
theorem c2_round2_missing_prereq (env : Env) (tasks : Tasks) (request : TaskRequest)
    (hr : request.round ≠ 1) (hm : assocGet request.task tasks = none) :
    process_task_with_deadline env tasks request =
      (tasks, [Ev.logError "Task processing failed: No Round 1 data found for this task"]) ∧
    (∀ p u n, Ev.notifyAttempt p u n ∉ (process_task_with_deadline env tasks request).2) ∧
    Ev.pubCreate ∉ (process_task_with_deadline env tasks request).2 ∧
    Ev.pubUpdate ∉ (process_task_with_deadline env tasks request).2 := by
  have h1 : process_task_with_deadline env tasks request =
      (tasks, [Ev.logError "Task processing failed: No Round 1 data found for this task"]) := by
    simp [process_task_with_deadline, process_round2, hr, hm, bgWrap]
  refine ⟨h1, ?_, ?_, ?_⟩ <;> simp [h1]

theorem modify_existing_app_trace (env : ModEnv) (request : TaskRequest) (rec : RoundRecord) :
    (modify_existing_app env request rec).2 = [Ev.modifyInvoke, Ev.modifyBackendCall] := by
  unfold modify_existing_app
  rcases env.call with m | ⟨code, body⟩
  · rfl
  · by_cases h : code = 200 <;> cases body <;> simp [h]

theorem sendEvalLoop_attempt_payload (oracle : Nat → CallbackResp) (payload : TaskResponse)
    (url : String) (l : List Nat) (p : TaskResponse) (u : String) (n : Nat)
    (h : Ev.notifyAttempt p u n ∈ (sendEvalLoop oracle payload url l).2) :
    p = payload := by
  induction l with
  | nil => simp [sendEvalLoop] at h
  | cons a rest ih =>
    unfold sendEvalLoop at h
    rcases ho : oracle a with code | m <;> rw [ho] at h
    · by_cases hc : code = 200
      · simp [hc] at h
        exact h.1
      · by_cases ha : a < 2 <;> simp [hc, ha] at h <;>
          rcases h with h1 | h2
        · exact h1.1
        · exact ih h2
        · exact h1.1
        · exact ih h2
    · by_cases ha : a < 2 <;> simp [ha] at h <;> rcases h with h1 | h2
      · exact h1.1
      · exact ih h2
      · exact h1.1
      · exact ih h2

theorem send_evaluation_attempt_payload (oracle : Nat → CallbackResp) (payload : TaskResponse)
    (url : String) (p : TaskResponse) (u : String) (n : Nat)
    (h : Ev.notifyAttempt p u n ∈ (send_evaluation oracle payload url).2) :
    p = payload :=
  sendEvalLoop_attempt_payload oracle payload url [0, 1, 2] p u n h

theorem process_round2_notify_round (env : Env) (tasks : Tasks) (request : TaskRequest)
    (p : TaskResponse) (u : String) (n : Nat)
    (hmem : Ev.notifyAttempt p u n ∈ (process_round2 env tasks request).2.2) :
    p.round = 2 := by
  unfold process_round2 at hmem
  rcases hg : assocGet request.task tasks with _ | rec <;> simp only [hg] at hmem
  · simp at hmem
  · rcases hM : modify_existing_app env.modifyEnv request rec with ⟨mres, mtr⟩
    have htr : mtr = [Ev.modifyInvoke, Ev.modifyBackendCall] := by
      have := modify_existing_app_trace env.modifyEnv request rec
      rw [hM] at this
      exact this
    simp only [hM] at hmem
    rcases mres with msg | files
    · simp [htr] at hmem
    · rcases hu : env.updateOutcome with r | msg <;> simp only [hu] at hmem
      · simp [htr] at hmem
        have := send_evaluation_attempt_payload env.notify _ request.evaluation_url p u n hmem
        subst this
        rfl
      · simp [htr] at hmem

/-- C10: any submitted round value other than 1 (0, 3, negative, ...) is
routed to the round-2 pipeline by the background dispatcher, and every
notification attempt that pipeline makes posts a payload with `round = 2`,
whatever round the caller submitted. -/
theorem c10_other_rounds_take_round2_path (env : Env) (tasks : Tasks) (request : TaskRequest)
    (hr : request.round ≠ 1) :
    process_task_with_deadline env tasks request = bgWrap (process_round2 env tasks request) ∧
    (∀ p u n, Ev.notifyAttempt p u n ∈ (process_task_with_deadline env tasks request).2 →
      p.round = 2) := by
  have h1 : process_task_with_deadline env tasks request =
      bgWrap (process_round2 env tasks request) := by
    simp [process_task_with_deadline, hr]
  refine ⟨h1, fun p u n hmem => ?_⟩
  rw [h1] at hmem
  rcases hR : process_round2 env tasks request with ⟨res, tasks2, tr⟩
  have htr : Ev.notifyAttempt p u n ∈ tr := by
    rw [hR] at hmem
    rcases res with msg | r
    · simpa [bgWrap] using hmem
    · simpa [bgWrap] using hmem
  have : Ev.notifyAttempt p u n ∈ (process_round2 env tasks request).2.2 := by
    rw [hR]; exact htr
  exact process_round2_notify_round env tasks request p u n this

/-- C10 witness: a round-0 submission with an existing round-1 record runs the
round-2 path; its notification payload carries round 2. -/
theorem c10_other_rounds_take_round2_path_witness :
    process_task_with_deadline
        ⟨⟨none, .error "no ai"⟩, ⟨some "<html>x</html>", .ok (200, .withOutput "<html>y</html>")⟩,
         .err "unused", .ok ⟨"https://g/u/r1", "sha2", "p1"⟩, fun _ => .status 200⟩
        [("t1", ⟨"https://g/u/r1", "a@b.c", "old brief"⟩)]
        ⟨"a@b.c", "hvk1995", "t1", 0, "n2", "new brief", ["c2"], "http://cb", []⟩ =
      bgWrap (process_round2
        ⟨⟨none, .error "no ai"⟩, ⟨some "<html>x</html>", .ok (200, .withOutput "<html>y</html>")⟩,
         .err "unused", .ok ⟨"https://g/u/r1", "sha2", "p1"⟩, fun _ => .status 200⟩
        [("t1", ⟨"https://g/u/r1", "a@b.c", "old brief"⟩)]
        ⟨"a@b.c", "hvk1995", "t1", 0, "n2", "new brief", ["c2"], "http://cb", []⟩) :=
  (c10_other_rounds_take_round2_path _ _ _ (by decide)).1

/-- C4: the stage-level limit is strictly below the total ceiling, and when
the pre-notification stage pipeline overruns it the run is cancelled by the
timeout: no notification ever starts, the missed deadline is logged, and the
timeout log is the final action of the background operation. -/
theorem c4_stage_timeout_aborts_notification (d : StageDurations)
    (h : d.dGen + d.dPub + d.dStore > TASK_TIMEOUT) :
    TASK_TIMEOUT < MAX_PROCESSING_TIME ∧
    (∀ t, TEv.notifyStart t ∉ process_task_with_deadline_timed d) ∧
    TEv.completed ∉ process_task_with_deadline_timed d ∧
    process_task_with_deadline_timed d = startedEvents d ++ [TEv.logTimeout] ∧
    (process_task_with_deadline_timed d).getLast? = some TEv.logTimeout := by
  have htot : totalDuration d > TASK_TIMEOUT := by
    unfold totalDuration
    omega
  have hmain : process_task_with_deadline_timed d = startedEvents d ++ [TEv.logTimeout] := by
    simp [process_task_with_deadline_timed, htot]
  have hnostart : ∀ t, TEv.notifyStart t ∉ startedEvents d := by
    intro t
    unfold startedEvents
    have h3 : ¬(d.dGen + d.dPub + d.dStore < TASK_TIMEOUT) := by omega
    by_cases h1 : d.dGen < TASK_TIMEOUT <;>
      by_cases h2 : d.dGen + d.dPub < TASK_TIMEOUT <;>
        simp [h1, h2, h3]
  refine ⟨by decide, fun t => ?_, ?_, hmain, ?_⟩
  · rw [hmain]
    simp [hnostart t]
  · rw [hmain]
    have : TEv.completed ∉ startedEvents d := by
      unfold startedEvents
      by_cases h1 : d.dGen < TASK_TIMEOUT <;>
        by_cases h2 : d.dGen + d.dPub < TASK_TIMEOUT <;>
          by_cases h3 : d.dGen + d.dPub + d.dStore < TASK_TIMEOUT <;>
            simp [h1, h2, h3]
    simp [this]
  · rw [hmain]
    simp

/-- C4 witness: a generation stage of 500 seconds overruns the 480-second
stage limit; the timed run ends at the timeout log with no notification. -/
theorem c4_stage_timeout_aborts_notification_witness :
    (500 : Nat) + 10 + 0 > TASK_TIMEOUT ∧
    process_task_with_deadline_timed ⟨500, 10, 0, 5⟩ =
      startedEvents ⟨500, 10, 0, 5⟩ ++ [TEv.logTimeout] :=
  ⟨by decide, (c4_stage_timeout_aborts_notification ⟨500, 10, 0, 5⟩ (by decide)).2.2.2.1⟩

/-- Sample environment for concrete instances: AI generation unconfigured /
failing over, round-2 modify succeeding, both publishers succeeding, callback
accepting. -/
def sampleEnv : Env :=
  ⟨⟨none, .error "connection refused"⟩, ⟨none, .ok (200, .withOutput "<html>v2</html>")⟩,
   .ok ⟨"https://github.com/u/r1", "sha1", "https://u.github.io/r1"⟩,
   .ok ⟨"https://github.com/u/r1", "sha2", "https://u.github.io/r1"⟩,
   fun _ => .status 200⟩

/-- C2 witness: a concrete round-2 submission against an empty Round State
Store only logs the missing-prerequisite failure. -/
theorem c2_round2_missing_prereq_witness :
    process_task_with_deadline sampleEnv []
      ⟨"a@b.c", "hvk1995", "t9", 2, "n1", "add dark mode", ["c1"], "http://cb", []⟩ =
      ([], [Ev.logError "Task processing failed: No Round 1 data found for this task"]) :=
  (c2_round2_missing_prereq sampleEnv []
    ⟨"a@b.c", "hvk1995", "t9", 2, "n1", "add dark mode", ["c1"], "http://cb", []⟩
    (by decide) rfl).1

/-- Count of notification attempts recorded in a trace. -/
def countAttempts : List Ev → Nat
  | [] => 0
  | Ev.notifyAttempt _ _ _ :: r => countAttempts r + 1
  | _ :: r => countAttempts r

/-- Failed attempt in the sense of the spec: a non-2xx HTTP response or a
network failure. -/
def failedResp : CallbackResp → Prop
  | .status code => code < 200 ∨ 300 ≤ code
  | .netErr _ => True

theorem sendEvalLoop_cons_eq (oracle : Nat → CallbackResp) (payload : TaskResponse)
    (url : String) (a : Nat) (rest : List Nat) :
    sendEvalLoop oracle payload url (a :: rest) =
      match oracle a with
      | .status code =>
        if code = 200 then (true, [Ev.notifyAttempt payload url a])
        else
          if a < 2 then
            ((sendEvalLoop oracle payload url rest).1,
             Ev.notifyAttempt payload url a :: Ev.sleepSec 1 ::
               (sendEvalLoop oracle payload url rest).2)
          else
            ((sendEvalLoop oracle payload url rest).1,
             Ev.notifyAttempt payload url a :: (sendEvalLoop oracle payload url rest).2)
      | .netErr _ =>
        if a < 2 then
          ((sendEvalLoop oracle payload url rest).1,
           Ev.notifyAttempt payload url a :: Ev.sleepSec 1 ::
             (sendEvalLoop oracle payload url rest).2)
        else
          ((sendEvalLoop oracle payload url rest).1,
           Ev.notifyAttempt payload url a :: (sendEvalLoop oracle payload url rest).2) := by
  simp only [sendEvalLoop]

theorem sendEvalLoop_cons_200 (oracle : Nat → CallbackResp) (payload : TaskResponse)
    (url : String) (a : Nat) (rest : List Nat) (ho : oracle a = .status 200) :
    sendEvalLoop oracle payload url (a :: rest) = (true, [Ev.notifyAttempt payload url a]) := by
  rw [sendEvalLoop_cons_eq, ho]
  simp

theorem sendEvalLoop_cons_failed (oracle : Nat → CallbackResp) (payload : TaskResponse)
    (url : String) (a : Nat) (rest : List Nat) (hf : failedResp (oracle a)) :
    sendEvalLoop oracle payload url (a :: rest) =
      ((sendEvalLoop oracle payload url rest).1,
       if a < 2 then
         Ev.notifyAttempt payload url a :: Ev.sleepSec 1 ::
           (sendEvalLoop oracle payload url rest).2
       else Ev.notifyAttempt payload url a :: (sendEvalLoop oracle payload url rest).2) := by
  rw [sendEvalLoop_cons_eq]
  rcases ho : oracle a with code | m
  · rw [ho] at hf
    have hc : ¬code = 200 := by
      rcases hf with h | h <;> omega
    by_cases ha : a < 2 <;> simp [hc, ha]
  · by_cases ha : a < 2 <;> simp [ha]

theorem sendEvalLoop_countAttempts (oracle : Nat → CallbackResp) (payload : TaskResponse)
    (url : String) (l : List Nat) :
    countAttempts (sendEvalLoop oracle payload url l).2 ≤ l.length := by
  induction l with
  | nil => simp [sendEvalLoop, countAttempts]
  | cons a rest ih =>
    unfold sendEvalLoop
    rcases oracle a with code | m
    · by_cases hc : code = 200
      · simp [hc, countAttempts]
      · by_cases ha : a < 2 <;> simp [hc, ha, countAttempts] <;> omega
    · by_cases ha : a < 2 <;> simp [countAttempts, ha] <;> omega

/-- C5: the Notifier makes at most 3 attempts; it stops immediately after the
first 200 response (a callback failing twice then succeeding sees exactly 3
calls); a non-2xx response or a network failure counts as a failed attempt; a
1-second delay separates consecutive attempts with none after the last; and
when all 3 attempts fail the failure is logged and swallowed — the round-1
pipeline's outcome does not depend on it and the published repository is left
as is. -/
theorem c5_notifier_bounded_retry (oracle : Nat → CallbackResp) (payload : TaskResponse)
    (url : String) :
    countAttempts (send_evaluation oracle payload url).2 ≤ 3 ∧
    (oracle 0 = .status 200 →
      send_evaluation oracle payload url = (true, [Ev.notifyAttempt payload url 0])) ∧
    (failedResp (oracle 0) → oracle 1 = .status 200 →
      send_evaluation oracle payload url =
        (true, [Ev.notifyAttempt payload url 0, Ev.sleepSec 1,
                Ev.notifyAttempt payload url 1])) ∧
    (failedResp (oracle 0) → failedResp (oracle 1) → oracle 2 = .status 200 →
      send_evaluation oracle payload url =
        (true, [Ev.notifyAttempt payload url 0, Ev.sleepSec 1,
                Ev.notifyAttempt payload url 1, Ev.sleepSec 1,
                Ev.notifyAttempt payload url 2])) ∧
    (failedResp (oracle 0) → failedResp (oracle 1) → failedResp (oracle 2) →
      send_evaluation oracle payload url =
        (false, [Ev.notifyAttempt payload url 0, Ev.sleepSec 1,
                 Ev.notifyAttempt payload url 1, Ev.sleepSec 1,
                 Ev.notifyAttempt payload url 2,
                 Ev.logError "Failed to send evaluation notification after all retries"])) ∧
    (∀ env : Env, ∀ tasks : Tasks, ∀ request : TaskRequest, ∀ r : PublishResult,
      env.createOutcome = .ok r → (process_round1 env tasks request).1 = .ok ()) := by
  refine ⟨sendEvalLoop_countAttempts oracle payload url [0, 1, 2], ?_, ?_, ?_, ?_, ?_⟩
  · intro h0
    exact sendEvalLoop_cons_200 oracle payload url 0 [1, 2] h0
  · intro h0 h1
    rw [send_evaluation, sendEvalLoop_cons_failed oracle payload url 0 [1, 2] h0,
      sendEvalLoop_cons_200 oracle payload url 1 [2] h1]
    simp
  · intro h0 h1 h2
    rw [send_evaluation, sendEvalLoop_cons_failed oracle payload url 0 [1, 2] h0,
      sendEvalLoop_cons_failed oracle payload url 1 [2] h1,
      sendEvalLoop_cons_200 oracle payload url 2 [] h2]
    simp
  · intro h0 h1 h2
    rw [send_evaluation, sendEvalLoop_cons_failed oracle payload url 0 [1, 2] h0,
      sendEvalLoop_cons_failed oracle payload url 1 [2] h1,
      sendEvalLoop_cons_failed oracle payload url 2 [] h2]
    simp [sendEvalLoop]
  · intro env tasks request r hc
    simp [process_round1, hc]

/-- Callback behavior that fails twice with HTTP 500 and then accepts. -/
def oracleFailTwice : Nat → CallbackResp := fun i => if i < 2 then .status 500 else .status 200

/-- Payload used by concrete notifier runs. -/
def payloadW : TaskResponse := ⟨"a@b.c", "t1", 1, "n1", "u", "s", "p"⟩

/-- C5 witness: against a callback that fails twice then succeeds, the
Notifier records exactly 3 attempts, succeeds, and sleeps only between
attempts. -/
theorem c5_notifier_bounded_retry_witness :
    send_evaluation oracleFailTwice payloadW "http://cb" =
      (true, [Ev.notifyAttempt payloadW "http://cb" 0, Ev.sleepSec 1,
              Ev.notifyAttempt payloadW "http://cb" 1, Ev.sleepSec 1,
              Ev.notifyAttempt payloadW "http://cb" 2]) :=
  (c5_notifier_bounded_retry oracleFailTwice payloadW "http://cb").2.2.2.1
    (by simp [oracleFailTwice, failedResp])
    (by simp [oracleFailTwice, failedResp])
    (by simp [oracleFailTwice])

/-- Round-2 modify environment whose AI backend answers HTTP 500. -/
def modEnv500 : ModEnv := ⟨some "<html>old</html>", .ok (500, .withOutput "irrelevant")⟩

/-- Environment whose round-2 AI call answers HTTP 500 while every other
collaborator would succeed. -/
def envGen500 : Env :=
  ⟨⟨none, .error "unused"⟩, modEnv500, .ok ⟨"https://g/u/r1", "sha1", "p1"⟩,
   .ok ⟨"https://g/u/r1", "sha2", "p1"⟩, fun _ => .status 200⟩

/-- Round-2 request of the C3 counterexample. -/
def reqC3 : TaskRequest :=
  ⟨"a@b.c", "hvk1995", "t1", 2, "n2", "add dark mode", ["c2"], "http://cb", []⟩

/-- Round-1 record present when the C3 counterexample runs. -/
def recC3 : RoundRecord := ⟨"https://g/u/r1", "a@b.c", "build a calculator"⟩

/-- C3 counterexample: on the round-2 modify path a non-200 backend response
is not replaced by a fallback artifact set — `modify_existing_app` raises, the
round aborts with that error, and the round-2 trace shows no publish and no
notification, so content-generation failure IS fatal to round 2. -/
theorem c3_counterexample :
    (modify_existing_app modEnv500 reqC3 recC3).1 =
      .error "Failed to modify application: AIPipe API request failed" ∧
    (process_round2 envGen500 [("t1", recC3)] reqC3).1 =
      .error "Failed to modify application: AIPipe API request failed" ∧
    (process_round2 envGen500 [("t1", recC3)] reqC3).2.2 =
      [Ev.modifyInvoke, Ev.modifyBackendCall] :=
  ⟨rfl, rfl, rfl⟩

/-- C3 amended: on the round-1 generate path every failure mode (unconfigured
key, raised call, non-200 status, unexpected 200-response shape) yields the
deterministic fallback artifact set, so generation never fails there; on the
round-2 modify path a raised call or a non-200 status raises and aborts the
round, and only a 200 response (of any shape) yields artifacts. -/
theorem c3_generation_failure_handling (genv : GenEnv) (menv : ModEnv)
    (request : TaskRequest) (rec : RoundRecord) :
    (aipipeConfigured genv.aipipeKey = false →
      (generate_app_with_ai genv request).1 = generate_fallback_app request) ∧
    (∀ m, genv.call = .error m →
      (generate_app_with_ai genv request).1 = generate_fallback_app request) ∧
    (∀ code body, genv.call = .ok (code, body) → code ≠ 200 →
      (generate_app_with_ai genv request).1 = generate_fallback_app request) ∧
    (∀ s, genv.call = .ok (200, .unexpected s) →
      (generate_app_with_ai genv request).1 = generate_fallback_app request) ∧
    (∀ m, menv.call = .error m →
      (modify_existing_app menv request rec).1 =
        .error ("Failed to modify application: " ++ m)) ∧
    (∀ code body, menv.call = .ok (code, body) → code ≠ 200 →
      (modify_existing_app menv request rec).1 =
        .error "Failed to modify application: AIPipe API request failed") ∧
    (∀ body, menv.call = .ok (200, body) →
      ∃ files, (modify_existing_app menv request rec).1 = .ok files) := by
  refine ⟨?_, ?_, ?_, ?_, ?_, ?_, ?_⟩
  · intro h
    simp [generate_app_with_ai, h]
  · intro m hm
    by_cases hk : aipipeConfigured genv.aipipeKey <;>
      simp [generate_app_with_ai, hk, hm]
  · intro code body hcall hne
    by_cases hk : aipipeConfigured genv.aipipeKey <;>
      simp [generate_app_with_ai, hk, hcall, hne]
  · intro s hs
    by_cases hk : aipipeConfigured genv.aipipeKey <;>
      simp [generate_app_with_ai, hk, hs]
  · intro m hm
    simp [modify_existing_app, hm]
  · intro code body hcall hne
    simp [modify_existing_app, hcall, hne]
  · intro body h200
    cases body <;> simp [modify_existing_app, h200]

/-- C3 amended witness: with an unreachable backend the round-1 generator
returns exactly the fallback artifact set. -/
theorem c3_generation_failure_handling_witness :
    (generate_app_with_ai ⟨none, .error "connection refused"⟩ reqC3).1 =
      generate_fallback_app reqC3 :=
  (c3_generation_failure_handling ⟨none, .error "connection refused"⟩ modEnv500
    reqC3 recC3).2.1 "connection refused" rfl

theorem bgWrap_fst (x : Except String Unit × Tasks × List Ev) : (bgWrap x).1 = x.2.1 := by
  rcases x with ⟨res, tasks, tr⟩
  rcases res with m | u <;> rfl

theorem process_round2_tasks_unchanged (env : Env) (tasks : Tasks) (request : TaskRequest) :
    (process_round2 env tasks request).2.1 = tasks := by
  unfold process_round2
  rcases hg : assocGet request.task tasks with _ | rec <;> simp only [hg]
  rcases hM : modify_existing_app env.modifyEnv request rec with ⟨mres, mtr⟩
  rcases mres with msg | files
  · rfl
  · rcases hu : env.updateOutcome with r | msg <;> simp only [hu]

/-- Round-1 request resubmitted twice in the C9 counterexample. -/
def reqC9 : TaskRequest :=
  ⟨"a@b.c", "hvk1995", "t1", 1, "n1", "plain app", ["c1"], "http://cb", []⟩

/-- First round-1 run: the repository is created at address r1. -/
def envC9a : Env :=
  ⟨⟨none, .error "unused"⟩, ⟨none, .error "unused"⟩,
   .ok ⟨"https://g/u/r1", "sha1", "p1"⟩, .err "unused", fun _ => .status 200⟩

/-- Second round-1 run of the same task: the repository name carries a
time-based salt (`generate_repo_name` hashes the current timestamp), so the
newly created repository has the different address r2. -/
def envC9b : Env :=
  ⟨⟨none, .error "unused"⟩, ⟨none, .error "unused"⟩,
   .ok ⟨"https://g/u/r2", "sha9", "p2"⟩, .err "unused", fun _ => .status 200⟩

/-- C9 counterexample: resubmitting round 1 for the same task id overwrites
the Round State Store entry — after the first run the record holds address r1,
after the second it holds r2, so a record once present is NOT never
overwritten. -/
theorem c9_counterexample :
    assocGet "t1" (process_round1 envC9a [] reqC9).2.1 =
      some ⟨"https://g/u/r1", "a@b.c", "plain app"⟩ ∧
    assocGet "t1" (process_round1 envC9b (process_round1 envC9a [] reqC9).2.1 reqC9).2.1 =
      some ⟨"https://g/u/r2", "a@b.c", "plain app"⟩ ∧
    (⟨"https://g/u/r2", "a@b.c", "plain app"⟩ : RoundRecord) ≠
      ⟨"https://g/u/r1", "a@b.c", "plain app"⟩ :=
  ⟨rfl, rfl, by decide⟩

/-- C9 amended: the Round State Store entry is written only by the round-1
path — each successful round-1 run overwrites the entry for its own task id
(a repeated round-1 submission replaces the record) and touches no other key,
a failed publish writes nothing — and round-2 processing never mutates or
deletes any entry, whatever its outcome. -/
theorem c9_store_single_writer (env : Env) (tasks : Tasks) (request : TaskRequest) :
    (process_round2 env tasks request).2.1 = tasks ∧
    (request.round ≠ 1 → (process_task_with_deadline env tasks request).1 = tasks) ∧
    (∀ r, env.createOutcome = .ok r →
      (process_round1 env tasks request).2.1 =
        assocSet tasks request.task ⟨r.repo_url, request.email, request.brief⟩) ∧
    (∀ r k, env.createOutcome = .ok r → k ≠ request.task →
      assocGet k (process_round1 env tasks request).2.1 = assocGet k tasks) ∧
    (∀ m, env.createOutcome = .err m → (process_round1 env tasks request).2.1 = tasks) := by
  refine ⟨process_round2_tasks_unchanged env tasks request, ?_, ?_, ?_, ?_⟩
  · intro hr
    rw [process_task_with_deadline, if_neg hr, bgWrap_fst]
    exact process_round2_tasks_unchanged env tasks request
  · intro r hc
    simp [process_round1, hc]
  · intro r k hc hk
    rw [show (process_round1 env tasks request).2.1 =
        assocSet tasks request.task ⟨r.repo_url, request.email, request.brief⟩ from
      by simp [process_round1, hc]]
    rw [assocGet_assocSet, if_neg (fun hq => hk hq.symm)]
  · intro m hc
    simp [process_round1, hc]

/-- C9 amended witness: a concrete round-2 run leaves the store untouched. -/
theorem c9_store_single_writer_witness :
    (process_round2 sampleEnv [("t1", recC3)] reqC3).2.1 = [("t1", recC3)] :=
  (c9_store_single_writer sampleEnv [("t1", recC3)] reqC3).1
